import Mathlib

/-!
Verification of the Horilla HRM mail fragment: the visa-expiry signal
handler (employee/signals.py), the dynamic mail backend and attempt
logger, and the make_email factory (base/backends.py).

Python values of type `Optional[str]` are modelled as `Option String`;
Python truthiness of strings and lists is made explicit through the
`pyStrTruthy` / `pyListTruthy` helpers, and the Python `a or b`
expression through `pyStrOr` / `pyListOr`.  Dates are modelled as
absolute day numbers (`Int`), so that `(d1 - d2).days` becomes plain
integer subtraction.  Exceptions raised by an external collaborator
(the SMTP transport, the template renderer, the employee accessor) are
modelled by passing the collaborator's outcome as an `Except` value.
-/

/-- Python truthiness of an `Optional[str]`: `None` and `""` are falsy. -/
def pyStrTruthy : Option String → Bool
  | none => false
  | some s => s ≠ ""

/-- Python truthiness of an `Optional[list]`: `None` and `[]` are falsy. -/
def pyListTruthy : Option (List String) → Bool
  | none => false
  | some l => l ≠ []

/-- Python `a or b` for optional strings. -/
def pyStrOr (a b : Option String) : Option String :=
  if pyStrTruthy a then a else b

/-- Python `a or b` for optional string lists. -/
def pyListOr (a b : Option (List String)) : Option (List String) :=
  if pyListTruthy a then a else b

/-- Python `a if a else d` for an optional string with a mandatory default. -/
def pyStrGetD (a : Option String) (d : String) : String :=
  match a with
  | none => d
  | some s => if s = "" then d else s

/-- Python `list(x) if x else None`. -/
def pyListOrNone (a : Option (List String)) : Option (List String) :=
  if pyListTruthy a then a else none

/-! ## Visa-expiry notifier (employee/signals.py) -/

/-- An auth `User` row, as read by the signal handler:
`User.objects.filter(is_superuser=True).values_list("email", flat=True)`.
The email column is a non-null `CharField`, so it is a plain `String`
(possibly empty). -/
structure SysUser where
  is_superuser : Bool
  email : String
deriving Repr, DecidableEq

/-- The slice of an `Employee` instance read by `employee_post_save`.
`visa_expire_date` is an optional date (day number); `email` is the raw
field; `get_email_available` models `hasattr(instance, "get_email")` and
`get_email_result` the outcome of calling `instance.get_email()`
(`Except.error` = the call raised). `full_name` is
`instance.get_full_name()`. -/
structure Employee where
  visa_expire_date : Option Int
  email : String
  get_email_available : Bool
  get_email_result : Except String String
  full_name : String
deriving Repr

/-- The settings read by the signal handler. -/
structure SignalsSettings where
  DEFAULT_FROM_EMAIL : Option String
  EMAIL_HOST_USER : Option String
deriving Repr, DecidableEq

/-- One `send_mail(...)` invocation recorded by the model. -/
structure SendCall where
  subject : String
  body : String
  from_email : String
  recipients : List String
  html_message : Option String
  fail_silently : Bool
deriving Repr, DecidableEq

/-- Embeds `emp_email = instance.get_email() if hasattr(instance, "get_email") else instance.email`,
with the surrounding `try/except` falling back to `getattr(instance, "email", None)`. -/
def resolve_emp_email (e : Employee) : String :=
  if e.get_email_available then
    match e.get_email_result with
    | .ok v => v
    | .error _ => e.email
  else e.email

/-- Embeds `admin_emails = list(User.objects.filter(is_superuser=True).values_list("email", flat=True))`. -/
def admin_emails (users : List SysUser) : List String :=
  (users.filter (fun u => u.is_superuser)).map (fun u => u.email)

/-- Shallow embedding of `employee_post_save` (employee/signals.py).
`today` is `date.today()` as a day number; `renderAdmin` / `renderEmp`
are the outcomes of the two `render_to_string` calls (`Except.error` =
the call raised).  The result is the list of `send_mail` calls made, in
order.  All sends use `fail_silently=True`, so a transport failure never
propagates; this is reflected by every recorded call carrying
`fail_silently := true`. -/
def employee_post_save (today : Int) (users : List SysUser) (s : SignalsSettings)
    (renderAdmin renderEmp : Except String String)
    (emp : Employee) (created : Bool) : List SendCall :=
  if !created then []
  else
    match emp.visa_expire_date with
    | none => []
    | some expiry =>
      let days := expiry - today
      if days < 0 ∨ days > 30 then []
      else
        let admins := admin_emails users
        let from_email :=
          pyStrGetD (pyStrOr s.DEFAULT_FROM_EMAIL s.EMAIL_HOST_USER) "no-reply@localhost"
        let subject_admin := "Employee visa expiring: " ++ emp.full_name
        let adminCalls : List SendCall :=
          if admins = [] then []
          else
            match renderAdmin with
            | .ok body_admin =>
              [⟨subject_admin, body_admin, from_email, admins, some body_admin, true⟩]
            | .error _ =>
              [⟨subject_admin,
                "Employee " ++ emp.full_name ++ " has visa expiring on "
                  ++ toString expiry ++ " (" ++ toString days ++ " days remaining).",
                from_email, admins, none, true⟩]
        let emp_email := resolve_emp_email emp
        let empCalls : List SendCall :=
          if emp_email = "" then []
          else
            match renderEmp with
            | .ok body_emp =>
              [⟨"Your visa will expire soon", body_emp, from_email, [emp_email],
                some body_emp, true⟩]
            | .error _ =>
              [⟨"Your visa will expire soon",
                "Your visa expires on " ++ toString expiry ++ " (" ++ toString days ++ " days).",
                from_email, [emp_email], none, true⟩]
        adminCalls ++ empCalls

/-! ## Dynamic mail backend (base/backends.py) -/

/-- The static Django settings read by `DefaultHorillaMailBackend`.
A field holding `none` models a setting that is absent (so that
`getattr(settings, name, None)` yields `None`). -/
structure MailSettings where
  EMAIL_HOST : Option String
  EMAIL_PORT : Option Int
  EMAIL_HOST_USER : Option String
  EMAIL_HOST_PASSWORD : Option String
  EMAIL_USE_TLS : Option Bool
  EMAIL_USE_SSL : Option Bool
  EMAIL_TIMEOUT : Option Int
  EMAIL_FAIL_SILENTLY : Option Bool
  DEFAULT_FROM_EMAIL : Option String
  ssl_keyfile : Option String
  ssl_certfile : Option String
deriving Repr, DecidableEq

/-- A `DynamicEmailConfiguration` row.  Database columns are nullable, so
each transport field is an `Option`.  The model (per the spec's data
model, the model class itself not being part of this fragment) has no
`fail_silently` column, so `getattr(config, "fail_silently", None)` is
always `None` when a configuration is present. -/
structure DynamicEmailConfiguration where
  company_id : Option Nat
  host : Option String
  port : Option Int
  username : Option String
  password : Option String
  use_tls : Option Bool
  use_ssl : Option Bool
  timeout : Option Int
  display_name : Option String
  from_email : Option String
  is_primary : Bool
  use_dynamic_display_name : Bool
  ssl_keyfile : Option String
  ssl_certfile : Option String
deriving Repr, DecidableEq

/-- Embeds `getattr(self.configuration, "host", None) if self.configuration else getattr(settings, "EMAIL_HOST", None)`. -/
def dynamic_host (conf : Option DynamicEmailConfiguration) (s : MailSettings) : Option String :=
  match conf with
  | some c => c.host
  | none => s.EMAIL_HOST

/-- The `dynamic_port` accessor. -/
def dynamic_port (conf : Option DynamicEmailConfiguration) (s : MailSettings) : Option Int :=
  match conf with
  | some c => c.port
  | none => s.EMAIL_PORT

/-- The `dynamic_username` accessor. -/
def dynamic_username (conf : Option DynamicEmailConfiguration) (s : MailSettings) : Option String :=
  match conf with
  | some c => c.username
  | none => s.EMAIL_HOST_USER

/-- The `dynamic_mail_sent_from` accessor. -/
def dynamic_mail_sent_from (conf : Option DynamicEmailConfiguration) (s : MailSettings) : Option String :=
  match conf with
  | some c => c.from_email
  | none => s.DEFAULT_FROM_EMAIL

/-- The `dynamic_display_name` accessor (note: the no-configuration branch is
`None`, not a settings value). -/
def dynamic_display_name (conf : Option DynamicEmailConfiguration) (_s : MailSettings) : Option String :=
  match conf with
  | some c => c.display_name
  | none => none

/-- The `dynamic_from_email_with_display_name` accessor: formats
`"display_name <from_email>"` when a display name is truthy, else the
plain resolved sender. -/
def dynamic_from_email_with_display_name (conf : Option DynamicEmailConfiguration)
    (s : MailSettings) : Option String :=
  if pyStrTruthy (dynamic_display_name conf s) then
    some ((dynamic_display_name conf s).getD "" ++ " <"
      ++ (dynamic_mail_sent_from conf s).getD "None" ++ ">")
  else dynamic_mail_sent_from conf s

/-- The `dynamic_password` accessor. -/
def dynamic_password (conf : Option DynamicEmailConfiguration) (s : MailSettings) : Option String :=
  match conf with
  | some c => c.password
  | none => s.EMAIL_HOST_PASSWORD

/-- The `dynamic_use_tls` accessor. -/
def dynamic_use_tls (conf : Option DynamicEmailConfiguration) (s : MailSettings) : Option Bool :=
  match conf with
  | some c => c.use_tls
  | none => s.EMAIL_USE_TLS

/-- The `dynamic_fail_silently` accessor: the configuration model has no
`fail_silently` column, so the configuration branch yields `None`; the
settings branch uses `getattr(settings, "EMAIL_FAIL_SILENTLY", True)`. -/
def dynamic_fail_silently (conf : Option DynamicEmailConfiguration) (s : MailSettings) : Option Bool :=
  match conf with
  | some _ => none
  | none => some (s.EMAIL_FAIL_SILENTLY.getD true)

/-- The `dynamic_use_ssl` accessor. -/
def dynamic_use_ssl (conf : Option DynamicEmailConfiguration) (s : MailSettings) : Option Bool :=
  match conf with
  | some c => c.use_ssl
  | none => s.EMAIL_USE_SSL

/-- The `dynamic_timeout` accessor. -/
def dynamic_timeout (conf : Option DynamicEmailConfiguration) (s : MailSettings) : Option Int :=
  match conf with
  | some c => c.timeout
  | none => s.EMAIL_TIMEOUT

/-- The transport parameters `DefaultHorillaMailBackend.__init__` passes
to `super().__init__(...)`. -/
structure ResolvedTransport where
  host : Option String
  port : Option Int
  username : Option String
  password : Option String
  use_tls : Option Bool
  fail_silently : Option Bool
  use_ssl : Option Bool
  timeout : Option Int
  ssl_keyfile : Option String
  ssl_certfile : Option String
deriving Repr, DecidableEq

/-- Shallow embedding of `DefaultHorillaMailBackend.__init__`: `conf` is
the outcome of `get_dynamic_email_config()` (already `none` if that
raised), `ssl_keyfile_arg` / `ssl_certfile_arg` are the constructor
arguments of the same names (the host/port/credential constructor
arguments are never read), and the result is the set of parameters
forwarded to the parent `EmailBackend`. -/
def backend_init (conf : Option DynamicEmailConfiguration) (s : MailSettings)
    (ssl_keyfile_arg ssl_certfile_arg : Option String) : ResolvedTransport :=
  let ssl_keyfile :=
    match conf with
    | some c => c.ssl_keyfile
    | none => pyStrOr ssl_keyfile_arg s.ssl_keyfile
  let ssl_certfile :=
    match conf with
    | some c => c.ssl_certfile
    | none => pyStrOr ssl_certfile_arg s.ssl_certfile
  { host := dynamic_host conf s
    port := dynamic_port conf s
    username := dynamic_username conf s
    password := dynamic_password conf s
    use_tls := dynamic_use_tls conf s
    fail_silently := dynamic_fail_silently conf s
    use_ssl := dynamic_use_ssl conf s
    timeout := dynamic_timeout conf s
    ssl_keyfile := ssl_keyfile
    ssl_certfile := ssl_certfile }

/-- A partially-filled configuration row: `host` is set, every other
transport column is null. -/
def cfgHostOnly : DynamicEmailConfiguration :=
  { company_id := some 1, host := some "smtp.tenant.example", port := none,
    username := none, password := none, use_tls := none, use_ssl := none,
    timeout := none, display_name := none, from_email := none,
    is_primary := false, use_dynamic_display_name := false,
    ssl_keyfile := none, ssl_certfile := none }

/-- A fully-populated static settings record. -/
def settingsFull : MailSettings :=
  { EMAIL_HOST := some "smtp.static.example", EMAIL_PORT := some 587,
    EMAIL_HOST_USER := some "static-user", EMAIL_HOST_PASSWORD := some "static-pass",
    EMAIL_USE_TLS := some true, EMAIL_USE_SSL := some false,
    EMAIL_TIMEOUT := some 30, EMAIL_FAIL_SILENTLY := some true,
    DEFAULT_FROM_EMAIL := some "static@example.com", ssl_keyfile := some "key.pem",
    ssl_certfile := some "cert.pem" }

/-- The port resolution that claim C3 describes (written from the spec's
words, for comparison with `dynamic_port`): the configuration record's
field value if present, else the corresponding static setting, also when
a configuration record exists. -/
def claimed_fieldwise_port (conf : Option DynamicEmailConfiguration) (s : MailSettings) : Option Int :=
  match conf with
  | some c => c.port <|> s.EMAIL_PORT
  | none => s.EMAIL_PORT

/-- Shallow embedding of the query logic of
`DefaultHorillaMailBackend.get_dynamic_email_config`: `records` is the
`DynamicEmailConfiguration` table in database order and `company` the
company derived from the request user (`none` when there is no request,
the user is anonymous, or the derivation raised — all caught).
`filter(...).first()` becomes `(filter ...).head?`. -/
def get_dynamic_email_config (records : List DynamicEmailConfiguration)
    (company : Option Nat) : Option DynamicEmailConfiguration :=
  match (records.filter (fun r => r.company_id == company)).head? with
  | some c => some c
  | none => (records.filter (fun r => r.is_primary)).head?

/-! ## Attempt logger (`ConfiguredEmailBackend.send_messages`) -/

/-- An outbound `EmailMessage` value: the fields `make_email` sets and
the attempt logger reads.  `to` is `None` or a list, as in
`to=list(to) if to else None`. -/
structure EmailMessage where
  subject : String
  body : String
  from_email : Option String
  «to» : Option (List String)
  cc : Option (List String)
  bcc : Option (List String)
  reply_to : Option (List String)
  attachments : Option (List String)
  content_subtype : String
deriving Repr, DecidableEq

/-- Models `json.dumps` of a list of strings (plain quoting; none of the audit
claims depend on escaping). -/
def jsonList (l : List String) : String :=
  "[" ++ String.intercalate ", " (l.map (fun s => "\"" ++ s ++ "\"")) ++ "]"

/-- Embeds `json.dumps(message.to) if isinstance(message.to, (list, tuple)) else (message.to or "")`. -/
def serialize_to : Option (List String) → String
  | some l => jsonList l
  | none => ""

/-- Models `traceback.format_exc()`: the captured traceback text of the raised
exception; it always begins with the fixed header line, hence is never
empty. -/
def formatExc (e : String) : String :=
  "Traceback (most recent call last):\n" ++ e

/-- One `EmailLog` audit row. -/
structure EmailLogRow where
  subject : String
  body : String
  from_email : String
  «to» : String
  status : String
  error_message : Option String
deriving Repr, DecidableEq

/-- The `EmailLog.objects.create(...)` column values for one message:
`subject or ""` is the identity on strings, `(body or "")[:4000]`
truncates to 4000 characters, and `status` is decided solely by
`sent_flag`. -/
def mkEmailLogRow (fromEmail : String) (sent_flag : Bool)
    (exception_text : Option String) (m : EmailMessage) : EmailLogRow :=
  { subject := m.subject
    body := m.body.take 4000
    from_email := fromEmail
    «to» := serialize_to m.«to»
    status := if sent_flag then "sent" else "failed"
    error_message := exception_text }

/-- The audit row's sender column:
`getattr(self, "dynamic_from_email_with_display_name", None) or getattr(settings, "DEFAULT_FROM_EMAIL", "")`. -/
def log_from_email (conf : Option DynamicEmailConfiguration) (s : MailSettings) : String :=
  pyStrGetD (dynamic_from_email_with_display_name conf s) (s.DEFAULT_FROM_EMAIL.getD "")

/-- Shallow embedding of `ConfiguredEmailBackend.send_messages`.
`transport` is the outcome of the parent backend's `send_messages`
(`.error e` = it raised, `formatExc e` being the captured traceback;
`.ok n` = it returned count `n`).  `logWriteOk m` says whether the
`EmailLog.objects.create` call for message `m` succeeds (a raising
create is caught, the row is skipped, and the loop continues).  The
result is the function's return value paired with the audit rows
written, in order. -/
def send_messages (transport : Except String Nat) (fromEmail : String)
    (logWriteOk : EmailMessage → Bool) (msgs : List EmailMessage) :
    Nat × List EmailLogRow :=
  let response := match transport with | .ok n => n | .error _ => 0
  let sent_flag := match transport with | .ok n => n != 0 | .error _ => false
  let exception_text : Option String :=
    match transport with | .ok _ => none | .error e => some (formatExc e)
  (response, (msgs.filter logWriteOk).map (mkEmailLogRow fromEmail sent_flag exception_text))

/-! ## Message factory (`make_email`) -/

/-- The short-lived cache as read by `make_email`: the `reply_to{pk}`
entries and the `dynamic_display_name{user_id}` entries, the latter
keyed by an optional pk (`none` = the empty-string key used when no
authenticated user is present). -/
structure EmailCache where
  replyTo : Nat → Option (List String)
  displayName : Option Nat → Option String

/-- Shallow embedding of `make_email` (base/backends.py).  `ambientUser`
is the authenticated request user's pk; `none` covers no request, an
anonymous user, and the user-shape lookup raising — each of which leaves
`user_id = ""` and the passed `reply_to` untouched.  `renderResult` is
the outcome of `render_to_string(template_name, context)`. -/
def make_email (ambientUser : Option Nat) (cache : EmailCache) (s : MailSettings)
    (renderResult : Except String String)
    (subject : String) (template_name : Option String)
    (context : Option (List (String × String)))
    (plain_message : Option String) (from_email : Option String)
    («to» : Option (List String)) (reply_to : Option (List String))
    (cc : Option (List String)) (bcc : Option (List String))
    (attachments : Option (List String)) : EmailMessage :=
  let reply_to :=
    match ambientUser with
    | some pk => pyListOr reply_to (cache.replyTo pk)
    | none => reply_to
  let from_email :=
    pyStrOr from_email (pyStrOr (cache.displayName ambientUser) s.DEFAULT_FROM_EMAIL)
  let body := plain_message.getD ""
  let msg : EmailMessage :=
    { subject := subject
      body := body
      from_email := from_email
      «to» := pyListOrNone «to»
      cc := pyListOrNone cc
      bcc := pyListOrNone bcc
      reply_to := pyListOrNone reply_to
      attachments := attachments
      content_subtype := "plain" }
  if pyStrTruthy template_name && context.isSome then
    match renderResult with
    | .ok html => { msg with body := html, content_subtype := "html" }
    | .error _ => msg
  else msg

/-! ## Concrete fixtures used by witnesses and counterexamples -/

/-- A primary configuration row for a different company. -/
def cfgPrimary : DynamicEmailConfiguration :=
  { cfgHostOnly with
    company_id := some 2
    is_primary := true
    host := some "smtp.primary.example" }

/-- A concrete outbound message. -/
def msgA : EmailMessage :=
  { subject := "s", body := "b", from_email := some "f@x", «to» := some ["a@x"],
    cc := none, bcc := none, reply_to := none, attachments := none,
    content_subtype := "plain" }

/-- A second concrete outbound message. -/
def msgB : EmailMessage :=
  { msgA with subject := "s2" }

/-- A concrete cache with a reply-to and a display-name entry for every key. -/
def cacheFull : EmailCache :=
  { replyTo := fun _ => some ["Jane Roe <jane@x>"],
    displayName := fun _ => some "Jane Roe <jane@x>" }

/-- Claim C1: the visa-expiry notifier attempts a send only when the save
event is a creation, the employee's `visa_expire_date` is set, and the
day difference `d = visa_expire_date - today` satisfies `0 ≤ d ≤ 30`;
on updates, missing expiry dates, or any `d` outside the window
(in particular `d = -1` and `d = 31`) no send is attempted. -/
theorem employee_post_save_window_only
    (today : Int) (users : List SysUser) (s : SignalsSettings)
    (ra re : Except String String) (emp : Employee) (created : Bool)
    (h : employee_post_save today users s ra re emp created ≠ []) :
    created = true ∧ ∃ x, emp.visa_expire_date = some x ∧
      0 ≤ x - today ∧ x - today ≤ 30 := by
  cases created with
  | false => simp [employee_post_save] at h
  | true =>
    refine ⟨rfl, ?_⟩
    cases hv : emp.visa_expire_date with
    | none => simp [employee_post_save, hv] at h
    | some x =>
      simp [employee_post_save, hv] at h
      obtain ⟨h1, h2, -⟩ := h
      exact ⟨x, rfl, by omega, by omega⟩

/-- Witness for `employee_post_save_window_only`: at `d = 10` with a
superuser present the handler does send, and the theorem yields the
window facts there. -/
theorem employee_post_save_window_only_witness :
    true = true ∧ ∃ x, (Employee.mk (some 110) "e@x" true (.ok "e@x")
      "Jane Roe").visa_expire_date = some x ∧ 0 ≤ x - 100 ∧ x - 100 ≤ 30 :=
  employee_post_save_window_only 100 [⟨true, "a@x"⟩] ⟨some "f@x", none⟩
    (.ok "H") (.ok "H") (Employee.mk (some 110) "e@x" true (.ok "e@x") "Jane Roe")
    true (by decide)

/-- Claim C9: the notifier collects the raw `email` field of every
superuser (empty strings included); whenever at least one superuser
exists and the window condition holds on a creation, the admin-digest
send is attempted — the first recorded call goes to exactly the
collected superuser email list, even if every address is the empty
string. -/
theorem employee_post_save_admin_attempted
    (today : Int) (users : List SysUser) (s : SignalsSettings)
    (ra re : Except String String) (emp : Employee) (x : Int)
    (hv : emp.visa_expire_date = some x)
    (h0 : 0 ≤ x - today) (h30 : x - today ≤ 30)
    (hu : ∃ u ∈ users, u.is_superuser = true) :
    ∃ c, (employee_post_save today users s ra re emp true).head? = some c ∧
      c.recipients = admin_emails users := by
  have hne : admin_emails users ≠ [] := by
    obtain ⟨u, hmem, hsup⟩ := hu
    simp only [admin_emails, ne_eq, List.map_eq_nil_iff, List.filter_eq_nil_iff]
    push_neg
    exact ⟨u, hmem, by simp [hsup]⟩
  have hw1 : ¬(x < today) := by omega
  have hw2 : ¬(30 < x - today) := by omega
  cases ra with
  | ok body =>
    exact ⟨⟨"Employee visa expiring: " ++ emp.full_name, body,
        pyStrGetD (pyStrOr s.DEFAULT_FROM_EMAIL s.EMAIL_HOST_USER) "no-reply@localhost",
        admin_emails users, some body, true⟩,
      by simp [employee_post_save, hv, hw1, hw2, hne], rfl⟩
  | error err =>
    exact ⟨⟨"Employee visa expiring: " ++ emp.full_name,
        "Employee " ++ emp.full_name ++ " has visa expiring on " ++ toString x
          ++ " (" ++ toString (x - today) ++ " days remaining).",
        pyStrGetD (pyStrOr s.DEFAULT_FROM_EMAIL s.EMAIL_HOST_USER) "no-reply@localhost",
        admin_emails users, none, true⟩,
      by simp [employee_post_save, hv, hw1, hw2, hne], rfl⟩

/-- Witness for `employee_post_save_admin_attempted`: one superuser whose
email is the empty string; the admin send is still attempted, and its
recipient list is `[""]`. -/
theorem employee_post_save_admin_attempted_witness :
    ∃ c, (employee_post_save 100 [⟨true, ""⟩] ⟨some "f@x", none⟩ (.ok "H") (.ok "H")
        (Employee.mk (some 110) "" true (.ok "") "Jane Roe") true).head? = some c ∧
      c.recipients = admin_emails [⟨true, ""⟩] :=
  employee_post_save_admin_attempted 100 [⟨true, ""⟩] ⟨some "f@x", none⟩
    (.ok "H") (.ok "H") (Employee.mk (some 110) "" true (.ok "") "Jane Roe")
    110 rfl (by decide) (by decide) ⟨⟨true, ""⟩, by simp, rfl⟩

/-- Helper: the first element of a filtered list is the first element
satisfying the predicate. -/
theorem filter_head?_eq_find? {α : Type} (p : α → Bool) (l : List α) :
    (l.filter p).head? = l.find? p := by
  induction l with
  | nil => rfl
  | cons a t ih =>
    by_cases h : p a <;> simp [List.filter_cons, List.find?_cons, h, ih]

/-- Claim C4: the configuration resolver prefers a company-matching
record over the primary record: if a record matching the requesting
user's company exists one is chosen, only if none matches is the first
`is_primary` record chosen, and if neither exists the resolver returns
no dynamic configuration. -/
theorem get_dynamic_email_config_preference
    (records : List DynamicEmailConfiguration) (company : Option Nat) :
    ((∃ r ∈ records, r.company_id = company) →
      ∃ r, get_dynamic_email_config records company = some r ∧
        r.company_id = company) ∧
    ((∀ r ∈ records, r.company_id ≠ company) →
      get_dynamic_email_config records company =
        (records.filter (fun r => r.is_primary)).head?) ∧
    ((∀ r ∈ records, r.company_id ≠ company ∧ r.is_primary = false) →
      get_dynamic_email_config records company = none) := by
  refine ⟨?_, ?_, ?_⟩
  · rintro ⟨r, hmem, hr⟩
    have hne : records.find? (fun r => r.company_id == company) ≠ none := by
      intro h
      exact (List.find?_eq_none.mp h) r hmem (by simp [hr])
    obtain ⟨c, hc⟩ := Option.ne_none_iff_exists'.mp hne
    have hp := List.find?_some hc
    refine ⟨c, ?_, by simpa using hp⟩
    unfold get_dynamic_email_config
    rw [filter_head?_eq_find?, hc]
  · intro hall
    have h1 : records.find? (fun r => r.company_id == company) = none := by
      rw [List.find?_eq_none]
      intro x hx
      simp [hall x hx]
    unfold get_dynamic_email_config
    rw [filter_head?_eq_find?, h1]
  · intro hall
    have h1 : records.find? (fun r => r.company_id == company) = none := by
      rw [List.find?_eq_none]
      intro x hx
      simp [(hall x hx).1]
    have h2 : records.filter (fun r => r.is_primary) = [] := by
      rw [List.filter_eq_nil_iff]
      intro x hx
      simp [(hall x hx).2]
    unfold get_dynamic_email_config
    rw [filter_head?_eq_find?, h1, h2]
    rfl

/-- Witness for `get_dynamic_email_config_preference`: with the primary
record listed first and a record for company 1 present, the resolver
still picks the company-1 record. -/
theorem get_dynamic_email_config_preference_witness :
    ∃ r, get_dynamic_email_config [cfgPrimary, cfgHostOnly] (some 1) = some r ∧
      r.company_id = some 1 :=
  (get_dynamic_email_config_preference [cfgPrimary, cfgHostOnly] (some 1)).1
    ⟨cfgHostOnly, by simp, rfl⟩

/-- Counterexample to claim C3: on the partially-filled row `cfgHostOnly`
(host set, port null) with `EMAIL_PORT = 587` in static settings, the
resolved port is `none` — not the static `587` that the claimed
field-by-field two-tier fallback would give. -/
theorem dynamic_port_counterexample :
    dynamic_port (some cfgHostOnly) settingsFull = none ∧
    settingsFull.EMAIL_PORT = some 587 ∧
    dynamic_port (some cfgHostOnly) settingsFull ≠
      claimed_fieldwise_port (some cfgHostOnly) settingsFull := by
  refine ⟨rfl, rfl, ?_⟩
  decide

/-- Claim C3 (amended): parameter resolution is all-or-nothing on the
configuration record, not field-by-field: when a configuration record is
resolved, every transport parameter comes from the record's (possibly
null) field with no per-field fallback to static settings; when no
configuration record exists, every resolved parameter equals the
corresponding static setting (the display name having no static
counterpart and resolving to `none`). -/
theorem backend_params_all_or_nothing (c : DynamicEmailConfiguration) (s : MailSettings) :
    ((backend_init (some c) s none none).host = c.host ∧
     (backend_init (some c) s none none).port = c.port ∧
     (backend_init (some c) s none none).username = c.username ∧
     (backend_init (some c) s none none).password = c.password ∧
     (backend_init (some c) s none none).use_tls = c.use_tls ∧
     (backend_init (some c) s none none).use_ssl = c.use_ssl ∧
     (backend_init (some c) s none none).timeout = c.timeout ∧
     dynamic_display_name (some c) s = c.display_name) ∧
    ((backend_init none s none none).host = s.EMAIL_HOST ∧
     (backend_init none s none none).port = s.EMAIL_PORT ∧
     (backend_init none s none none).username = s.EMAIL_HOST_USER ∧
     (backend_init none s none none).password = s.EMAIL_HOST_PASSWORD ∧
     (backend_init none s none none).use_tls = s.EMAIL_USE_TLS ∧
     (backend_init none s none none).use_ssl = s.EMAIL_USE_SSL ∧
     (backend_init none s none none).timeout = s.EMAIL_TIMEOUT ∧
     dynamic_display_name none s = none) :=
  ⟨⟨rfl, rfl, rfl, rfl, rfl, rfl, rfl, rfl⟩,
   ⟨rfl, rfl, rfl, rfl, rfl, rfl, rfl, rfl⟩⟩

/-- Claim C10: when a configuration record is resolved, the
`ssl_keyfile` / `ssl_certfile` constructor arguments are ignored and
replaced by the record's attributes; the constructor arguments take
precedence over static settings only when no record is resolved (and,
per Python truthiness, only when non-empty). -/
theorem backend_init_ssl_args (c : DynamicEmailConfiguration) (s : MailSettings)
    (ak ac : Option String) :
    ((backend_init (some c) s ak ac).ssl_keyfile = c.ssl_keyfile ∧
     (backend_init (some c) s ak ac).ssl_certfile = c.ssl_certfile) ∧
    ((pyStrTruthy ak = true → (backend_init none s ak ac).ssl_keyfile = ak) ∧
     (pyStrTruthy ak = false → (backend_init none s ak ac).ssl_keyfile = s.ssl_keyfile) ∧
     (pyStrTruthy ac = true → (backend_init none s ak ac).ssl_certfile = ac) ∧
     (pyStrTruthy ac = false → (backend_init none s ak ac).ssl_certfile = s.ssl_certfile)) := by
  refine ⟨⟨rfl, rfl⟩, ?_, ?_, ?_, ?_⟩ <;>
    intro h <;> simp [backend_init, pyStrOr, h]

/-- Witness for `backend_init_ssl_args`: with no configuration record, a
non-empty keyfile argument wins over the static setting. -/
theorem backend_init_ssl_args_witness :
    (backend_init none settingsFull (some "arg-key.pem") none).ssl_keyfile =
      some "arg-key.pem" :=
  (backend_init_ssl_args cfgHostOnly settingsFull (some "arg-key.pem") none).2.1
    (by decide)

/-- Helper: a captured traceback is never the empty string. -/
theorem formatExc_ne_empty (e : String) : formatExc e ≠ "" := by
  unfold formatExc
  intro h
  have hlen := congrArg String.length h
  simp [String.length_append] at hlen
  exact absurd hlen.1 (by decide)

/-- Claim C2: when the parent backend's send raises, `send_messages`
does not re-raise: it returns the fallback count 0 and (every audit
insert succeeding) writes exactly one row per message of the batch, each
with status "failed" and the non-empty captured traceback as its error
detail. -/
theorem send_messages_transport_failure (e : String) (fromEmail : String)
    (msgs : List EmailMessage) :
    (send_messages (.error e) fromEmail (fun _ => true) msgs).1 = 0 ∧
    (send_messages (.error e) fromEmail (fun _ => true) msgs).2.length = msgs.length ∧
    ∀ r ∈ (send_messages (.error e) fromEmail (fun _ => true) msgs).2,
      r.status = "failed" ∧ ∃ t, r.error_message = some t ∧ t ≠ "" := by
  refine ⟨rfl, by simp [send_messages], ?_⟩
  intro r hr
  simp only [send_messages, List.filter_true, List.mem_map] at hr
  obtain ⟨m, hm, rfl⟩ := hr
  exact ⟨rfl, formatExc e, rfl, formatExc_ne_empty e⟩

/-- Witness for `send_messages_transport_failure`: a one-message batch
whose transport raised "boom" yields count 0 and one failed row with a
non-empty error detail. -/
theorem send_messages_transport_failure_witness :
    (send_messages (.error "boom") "f@x" (fun _ => true) [msgA]).1 = 0 ∧
    (send_messages (.error "boom") "f@x" (fun _ => true) [msgA]).2.length = 1 ∧
    (mkEmailLogRow "f@x" false (some (formatExc "boom")) msgA).status = "failed" ∧
    ∃ t, (mkEmailLogRow "f@x" false (some (formatExc "boom")) msgA).error_message
      = some t ∧ t ≠ "" := by
  have h := send_messages_transport_failure "boom" "f@x" [msgA]
  refine ⟨h.1, h.2.1, ?_, ?_⟩
  · exact (h.2.2 _ (by simp [send_messages])).1
  · exact (h.2.2 _ (by simp [send_messages])).2

/-- Claim C5: one audit write is attempted per message regardless of the
send outcome: with every write succeeding exactly N rows are written for
N messages (status "sent" with empty error detail when the parent send
returned a nonzero count); a failing individual write is caught, skips
only that row, does not abort the subsequent rows, and does not change
the return value. -/
theorem send_messages_per_message_rows (tr : Except String Nat) (fromEmail : String)
    (ok : EmailMessage → Bool) (msgs : List EmailMessage) :
    ((send_messages tr fromEmail ok msgs).1 =
      (send_messages tr fromEmail (fun _ => true) msgs).1) ∧
    ((send_messages tr fromEmail (fun _ => true) msgs).2.length = msgs.length) ∧
    (∀ n, tr = .ok n → n ≠ 0 →
      ∀ r ∈ (send_messages tr fromEmail ok msgs).2,
        r.status = "sent" ∧ r.error_message = none) ∧
    (∀ pre m post, msgs = pre ++ m :: post → ok m = false →
      (send_messages tr fromEmail ok msgs).2 =
        (send_messages tr fromEmail ok (pre ++ post)).2) := by
  refine ⟨rfl, by simp [send_messages], ?_, ?_⟩
  · rintro n rfl hn r hr
    simp only [send_messages, List.mem_map, List.mem_filter] at hr
    obtain ⟨m, hm, rfl⟩ := hr
    have hb : (n != 0) = true := by simpa using hn
    exact ⟨by simp [mkEmailLogRow, hb], rfl⟩
  · rintro pre m post rfl hnot
    simp [send_messages, List.filter_append, List.filter_cons, hnot]

/-- Witness for `send_messages_per_message_rows`: in a two-message batch
whose first audit insert fails, the rows written equal those of the
batch without that message, and the returned count is unaffected. -/
theorem send_messages_per_message_rows_witness :
    (send_messages (.ok 2) "f@x" (fun m => m.subject != "s") [msgA, msgB]).2 =
      (send_messages (.ok 2) "f@x" (fun m => m.subject != "s") [msgB]).2 ∧
    (send_messages (.ok 2) "f@x" (fun m => m.subject != "s") [msgA, msgB]).1 =
      (send_messages (.ok 2) "f@x" (fun _ => true) [msgA, msgB]).1 := by
  have h := send_messages_per_message_rows (.ok 2) "f@x"
    (fun m => m.subject != "s") [msgA, msgB]
  exact ⟨h.2.2.2 [] msgA [msgB] rfl (by decide), h.1⟩

/-- Claim C8: the audit status is decided solely by the truthiness of
the parent's return value, not by whether an exception occurred: a batch
where the parent returns 0 without raising yields return value 0 and
every written row marked "failed" with error detail `none`, and the
returned count is identical to that of a batch whose parent raised. -/
theorem send_messages_falsy_return (fromEmail : String) (ok : EmailMessage → Bool)
    (msgs : List EmailMessage) (e : String) :
    (send_messages (.ok 0) fromEmail ok msgs).1 = 0 ∧
    (∀ r ∈ (send_messages (.ok 0) fromEmail ok msgs).2,
      r.status = "failed" ∧ r.error_message = none) ∧
    (send_messages (.ok 0) fromEmail ok msgs).1 =
      (send_messages (.error e) fromEmail ok msgs).1 := by
  refine ⟨rfl, ?_, rfl⟩
  intro r hr
  simp only [send_messages, List.mem_map, List.mem_filter] at hr
  obtain ⟨m, hm, rfl⟩ := hr
  exact ⟨rfl, rfl⟩

/-- Witness for `send_messages_falsy_return`: a one-message batch whose
parent send returned 0 without raising: count 0, row "failed", error
detail `none`. -/
theorem send_messages_falsy_return_witness :
    (send_messages (.ok 0) "f@x" (fun _ => true) [msgA]).1 = 0 ∧
    (mkEmailLogRow "f@x" false none msgA).status = "failed" ∧
    (mkEmailLogRow "f@x" false none msgA).error_message = none := by
  have h := send_messages_falsy_return "f@x" (fun _ => true) [msgA] "boom"
  refine ⟨h.1, ?_, ?_⟩
  · exact (h.2.1 _ (by simp [send_messages])).1
  · exact (h.2.1 _ (by simp [send_messages])).2

/-- Claim C6: when both a template identifier and a rendering context
are supplied to `make_email`, a successful render becomes the message
body and the message is marked rich-text; a failed render keeps the
plain-text body already supplied with the plain subtype, and the factory
still returns a message — it is a total function, so a template error
never fails the call. -/
theorem make_email_template_behavior
    (ambientUser : Option Nat) (cache : EmailCache) (s : MailSettings)
    (renderResult : Except String String) (subject : String)
    (t : String) (ht : t ≠ "") (ctx : List (String × String))
    (plain_message from_email : Option String)
    («to» reply_to cc bcc attachments : Option (List String)) :
    (∀ html, renderResult = .ok html →
      (make_email ambientUser cache s renderResult subject (some t) (some ctx)
          plain_message from_email «to» reply_to cc bcc attachments).body = html ∧
      (make_email ambientUser cache s renderResult subject (some t) (some ctx)
          plain_message from_email «to» reply_to cc bcc attachments).content_subtype
        = "html") ∧
    (∀ err, renderResult = .error err →
      (make_email ambientUser cache s renderResult subject (some t) (some ctx)
          plain_message from_email «to» reply_to cc bcc attachments).body
        = plain_message.getD "" ∧
      (make_email ambientUser cache s renderResult subject (some t) (some ctx)
          plain_message from_email «to» reply_to cc bcc attachments).content_subtype
        = "plain") := by
  constructor
  · rintro html rfl
    constructor <;> simp [make_email, pyStrTruthy, ht]
  · rintro err rfl
    constructor <;> simp [make_email, pyStrTruthy, ht]

/-- Witness for `make_email_template_behavior`: with a template and a
context supplied but the renderer raising, the factory keeps the plain
body and the plain subtype. -/
theorem make_email_template_behavior_witness :
    (make_email (some 1) cacheFull settingsFull (.error "render boom") "Sub"
        (some "emails/tpl.html") (some []) (some "plain body") none
        (some ["a@x"]) none none none none).body = "plain body" ∧
    (make_email (some 1) cacheFull settingsFull (.error "render boom") "Sub"
        (some "emails/tpl.html") (some []) (some "plain body") none
        (some ["a@x"]) none none none none).content_subtype = "plain" :=
  (make_email_template_behavior (some 1) cacheFull settingsFull
    (.error "render boom") "Sub" "emails/tpl.html" (by decide) []
    (some "plain body") none (some ["a@x"]) none none none none).2
    "render boom" rfl

/-- Helper: the sender and reply-to fields of a factory-built message,
independent of the template branch. -/
theorem make_email_resolution
    (ambientUser : Option Nat) (cache : EmailCache) (s : MailSettings)
    (renderResult : Except String String) (subject : String)
    (template_name : Option String) (context : Option (List (String × String)))
    (plain_message from_email : Option String)
    («to» reply_to cc bcc attachments : Option (List String)) :
    (make_email ambientUser cache s renderResult subject template_name context
        plain_message from_email «to» reply_to cc bcc attachments).from_email =
      pyStrOr from_email (pyStrOr (cache.displayName ambientUser) s.DEFAULT_FROM_EMAIL) ∧
    (make_email ambientUser cache s renderResult subject template_name context
        plain_message from_email «to» reply_to cc bcc attachments).reply_to =
      pyListOrNone (match ambientUser with
        | some pk => pyListOr reply_to (cache.replyTo pk)
        | none => reply_to) := by
  unfold make_email
  cases pyStrTruthy template_name && context.isSome <;> cases renderResult <;> simp

/-- Claim C7: calling `make_email` twice with identical inputs, with no
cache mutation and no ambient-context change in between, resolves
`from_email` and `reply_to` identically in the two messages; the
`from_email` resolution chain is the explicit argument when truthy, else
the cached per-user display value, else the static default sender, and a
truthy explicit `reply_to` argument is kept as passed. -/
theorem make_email_idempotent
    (ambientUser : Option Nat) (cache : EmailCache) (s : MailSettings)
    (renderResult : Except String String) (subject : String)
    (template_name : Option String) (context : Option (List (String × String)))
    (plain_message from_email : Option String)
    («to» reply_to cc bcc attachments : Option (List String)) :
    ((make_email ambientUser cache s renderResult subject template_name context
        plain_message from_email «to» reply_to cc bcc attachments).from_email =
      (make_email ambientUser cache s renderResult subject template_name context
        plain_message from_email «to» reply_to cc bcc attachments).from_email ∧
     (make_email ambientUser cache s renderResult subject template_name context
        plain_message from_email «to» reply_to cc bcc attachments).reply_to =
      (make_email ambientUser cache s renderResult subject template_name context
        plain_message from_email «to» reply_to cc bcc attachments).reply_to) ∧
    (pyStrTruthy from_email = true →
      (make_email ambientUser cache s renderResult subject template_name context
        plain_message from_email «to» reply_to cc bcc attachments).from_email
          = from_email) ∧
    (pyStrTruthy from_email = false →
      pyStrTruthy (cache.displayName ambientUser) = true →
      (make_email ambientUser cache s renderResult subject template_name context
        plain_message from_email «to» reply_to cc bcc attachments).from_email
          = cache.displayName ambientUser) ∧
    (pyStrTruthy from_email = false →
      pyStrTruthy (cache.displayName ambientUser) = false →
      (make_email ambientUser cache s renderResult subject template_name context
        plain_message from_email «to» reply_to cc bcc attachments).from_email
          = s.DEFAULT_FROM_EMAIL) ∧
    (pyListTruthy reply_to = true →
      (make_email ambientUser cache s renderResult subject template_name context
        plain_message from_email «to» reply_to cc bcc attachments).reply_to
          = reply_to) := by
  have hres := make_email_resolution ambientUser cache s renderResult subject
    template_name context plain_message from_email «to» reply_to cc bcc attachments
  refine ⟨⟨rfl, rfl⟩, ?_, ?_, ?_, ?_⟩
  · intro h
    rw [hres.1]
    simp [pyStrOr, h]
  · intro h1 h2
    rw [hres.1]
    simp [pyStrOr, h1, h2]
  · intro h1 h2
    rw [hres.1]
    simp [pyStrOr, h1, h2]
  · intro h
    rw [hres.2]
    cases ambientUser <;> simp [pyListOr, pyListOrNone, h]

/-- Witness for `make_email_idempotent`: with no explicit sender, the
cached display value for user 7 is resolved, and the two identical
calls agree. -/
theorem make_email_idempotent_witness :
    (make_email (some 7) cacheFull settingsFull (.ok "H") "Sub" none none
        none none none none none none none).from_email =
      cacheFull.displayName (some 7) ∧
    (make_email (some 7) cacheFull settingsFull (.ok "H") "Sub" none none
        none none none none none none none).from_email =
      (make_email (some 7) cacheFull settingsFull (.ok "H") "Sub" none none
        none none none none none none none).from_email := by
  have h := make_email_idempotent (some 7) cacheFull settingsFull (.ok "H") "Sub"
    none none none none none none none none none
  exact ⟨h.2.2.1 (by decide) (by decide), h.1.1⟩
